import Mathlib

/-!
Verification development for `simple_weather_forecast.py`: a shallow
embedding of the message-formatting logic (`format_weather_message` and
`get_weather_condition_description_id`) together with theorems settling
the specification claims.

Modelling conventions:
* Timestamps (`datetime.datetime` values) are embedded as natural numbers
  counting seconds since day 0; `dateOf` is the calendar day number,
  `hourOf` the hour of day.  The Python code only observes a timestamp
  through `.hour`, `.date()`, `+ timedelta(hours=…)`,
  `.replace(minute=0, second=0, microsecond=0)`, `datetime.combine` and
  `strftime`, all of which this model supports.
* A Python object field that may be absent (`hasattr` false) or present
  is an outer `Option`; a present-but-`None` value is an inner `none`.
* Weather codes reach the formatter already coerced to strings
  (the source applies `str(...)` before the table lookup).
* The `try`/`except` block of `format_weather_message` is embedded by an
  explicit exception-injection point (`ExcPoint`): exceptions can arise
  while resolving the location (before the location line is appended) or
  while processing the forecast entries (after the location line, before
  any section line); rendering of the internally-built forecast records
  is total in the typed model.
-/

/-- Timestamps: seconds since day 0 (naive local time, as in the source's
`datetime.datetime.now()`). -/
abbrev Timestamp := Nat

/-- `t.hour` in Python: hour of day, 0–23. -/
def Timestamp.hourOf (t : Timestamp) : Nat := t % 86400 / 3600

/-- `t.date()` in Python: the calendar-day number. -/
def Timestamp.dateOf (t : Timestamp) : Nat := t / 86400

/-- `t.replace(minute=0, second=0, microsecond=0)`: round down to the hour. -/
def Timestamp.floorToHour (t : Timestamp) : Timestamp := t / 3600 * 3600

/-- `t + datetime.timedelta(hours=h)`. -/
def Timestamp.addHours (t : Timestamp) (h : Nat) : Timestamp := t + h * 3600

/-- `datetime.datetime.combine(date, datetime.time(hour, 0))`. -/
def combineDateHour (d hour : Nat) : Timestamp := d * 86400 + hour * 3600

/-- Civil-calendar conversion for `strftime`: day number (day 0 =
1970-01-01) to `(year, month, dayOfMonth)`. -/
def civilFromDays (z0 : Nat) : Nat × Nat × Nat :=
  let z := z0 + 719468
  let era := z / 146097
  let doe := z % 146097
  let yoe := (doe - doe / 1460 + doe / 36524 - doe / 146096) / 365
  let doy := doe - (365 * yoe + yoe / 4 - yoe / 100)
  let mp := (5 * doy + 2) / 153
  let d := doy - (153 * mp + 2) / 5 + 1
  let m := if mp < 10 then mp + 3 else mp - 9
  let y := yoe + era * 400
  (if m ≤ 2 then y + 1 else y, m, d)

/-- English weekday name, as `now.strftime("%A")` produces under the C
locale; day 0 (1970-01-01) is a Thursday. -/
def english_day_name (z : Nat) : String :=
  ["Monday", "Tuesday", "Wednesday", "Thursday", "Friday", "Saturday",
    "Sunday"].getD ((z + 3) % 7) "Monday"

/-- English month name, as `now.strftime("%B")` produces (month 1–12). -/
def english_month_name (m : Nat) : String :=
  ["January", "February", "March", "April", "May", "June", "July",
    "August", "September", "October", "November",
    "December"].getD (m - 1) "January"

/-- The `day_names` dict of the source. -/
def day_names : List (String × String) :=
  [("Monday", "Senin"), ("Tuesday", "Selasa"), ("Wednesday", "Rabu"),
   ("Thursday", "Kamis"), ("Friday", "Jumat"), ("Saturday", "Sabtu"),
   ("Sunday", "Minggu")]

/-- The `month_names` dict of the source. -/
def month_names : List (String × String) :=
  [("January", "Januari"), ("February", "Februari"), ("March", "Maret"),
   ("April", "April"), ("May", "Mei"), ("June", "Juni"), ("July", "Juli"),
   ("August", "Agustus"), ("September", "September"),
   ("October", "Oktober"), ("November", "November"),
   ("December", "Desember")]

/-- `table.get(k, k)`: dict lookup with the key itself as the default. -/
def dictGetSelf (table : List (String × String)) (k : String) : String :=
  (table.lookup k).getD k

/-- Zero-padded two-digit rendering, as in `strftime("%d")` / `"%H"`. -/
def two_digit (n : Nat) : String :=
  if n < 10 then "0" ++ toString n else toString n

/-- The `current_date` string of the source:
`f"{day_names.get(eng_day, eng_day)}, {now.strftime('%d')} {month_names.get(eng_month, eng_month)} {now.strftime('%Y')}"`. -/
def current_date_str (now : Timestamp) : String :=
  let z := now.dateOf
  let c := civilFromDays z
  dictGetSelf day_names (english_day_name z) ++ ", " ++ two_digit c.2.2 ++
    " " ++ dictGetSelf month_names (english_month_name c.2.1) ++ " " ++
    toString c.1

/-- The `weather_codes` dict of `get_weather_condition_description_id`. -/
def weather_codes : List (String × String) :=
  [("0", "Cerah ☀️"),
   ("1", "Cerah Berawan 🌤️"),
   ("2", "Cerah Berawan 🌤️"),
   ("3", "Berawan ☁️"),
   ("4", "Berawan Tebal ☁️"),
   ("5", "Udara Kabur 🌫️"),
   ("10", "Asap 🌫️"),
   ("45", "Berkabut 🌫️"),
   ("60", "Hujan Ringan 🌦️"),
   ("61", "Hujan Sedang 🌧️"),
   ("63", "Hujan Lebat 🌧️"),
   ("80", "Hujan Lokal 🌦️"),
   ("95", "Hujan Petir ⛈️"),
   ("97", "Hujan Petir ⛈️")]

/-- `get_weather_condition_description_id(code)`:
`weather_codes.get(code, f"Kondisi Cuaca Tidak Diketahui (Kode: {code})")`. -/
def get_weather_condition_description_id (code : String) : String :=
  (weather_codes.lookup code).getD
    ("Kondisi Cuaca Tidak Diketahui (Kode: " ++ code ++ ")")

/-- The `location` attribute of the response object. -/
structure Location where
  name : Option String := none

/-- A forecast entry of `weather_data.weathers`.  The temperature may sit
under one of four attribute names; an outer `none` models an absent
attribute, an inner `none` a present attribute holding Python `None`. -/
structure WeatherEntry where
  temperature : Option (Option Int) := none
  temp : Option (Option Int) := none
  t : Option (Option Int) := none
  suhu : Option (Option Int) := none
  weather : Option String := none

/-- The response object (`weather_data`).  An absent or empty `weathers`
attribute are behaviourally identical in the source (both falsy), so both
are modelled by the empty list. -/
structure WeatherData where
  location : Option Location := none
  weathers : List WeatherEntry := []

/-- The candidate temperature attributes in the probing order of the
source: `['temperature', 'temp', 't', 'suhu']`. -/
def tempAttrs (e : WeatherEntry) : List (Option (Option Int)) :=
  [e.temperature, e.temp, e.t, e.suhu]

/-- The temperature-probing loop of the source: skip an absent attribute,
assign and keep going on a present `None`, stop at the first present
non-`None` value. -/
def resolveTempLoop : Option Int → List (Option (Option Int)) → Option Int
  | acc, [] => acc
  | acc, none :: rest => resolveTempLoop acc rest
  | _, some none :: rest => resolveTempLoop none rest
  | _, some (some x) :: _ => some x

/-- Temperature resolution for one entry. -/
def resolveTemp (e : WeatherEntry) : Option Int :=
  resolveTempLoop none (tempAttrs e)

/-- The `forecast` dict built by the source:
`{'datetime': …, 'weather': getattr(weather_entry, 'weather', None), 'temperature': …}`. -/
structure Forecast where
  datetime : Timestamp
  weather : Option String
  temperature : Option Int

/-- Build one forecast record from an assigned time and an entry. -/
def mkForecast (ft : Timestamp) (e : WeatherEntry) : Forecast :=
  { datetime := ft, weather := e.weather, temperature := resolveTemp e }

/-- The `day_forecasts` list: loop over `range(min(8, len(weathers)))`,
assign `now + (i+1) hours` rounded down to the hour, keep the entry iff
that time is on today's date with hour at most 18. -/
def day_forecasts (now : Timestamp) (weathers : List WeatherEntry) :
    List Forecast :=
  let current_date := now.dateOf
  let day_forecast_count := min 8 weathers.length
  (List.range day_forecast_count).filterMap fun i =>
    if h : i < weathers.length then
      let forecast_time := (now.addHours (i + 1)).floorToHour
      if forecast_time.dateOf = current_date ∧ forecast_time.hourOf ≤ 18 then
        some (mkForecast forecast_time (weathers.get ⟨i, h⟩))
      else none
    else none

/-- The fixed evening hours of the source: `night_hours = [19, 21, 23, 1]`. -/
def night_hours : List Nat := [19, 21, 23, 1]

/-- The `night_forecasts` list: loop over `range(min(4, len(weathers)))`
at offset `min(8, len(weathers))`; before 19:00 the hours come from
`night_hours` (early-morning hours land on tomorrow), from 19:00 on they
are `now + (2*i+1) hours` rounded down to the hour. -/
def night_forecasts (now : Timestamp) (weathers : List WeatherEntry) :
    List Forecast :=
  let current_hour := now.hourOf
  let current_date := now.dateOf
  let tomorrow_date := current_date + 1
  let night_offset := min 8 weathers.length
  let night_forecast_count := min 4 weathers.length
  (List.range night_forecast_count).filterMap fun i =>
    if h : i + night_offset < weathers.length then
      let entry := weathers.get ⟨i + night_offset, h⟩
      let forecast_time :=
        if current_hour < 19 then
          let hour := night_hours.getD i 1
          if hour < 12 ∧ hour < 6 then
            combineDateHour tomorrow_date hour
          else
            combineDateHour current_date hour
        else
          (now.addHours (i * 2 + 1)).floorToHour
      some (mkForecast forecast_time entry)
    else none

/-- Resolution of the displayed condition for one forecast record:
`"Data tidak tersedia"` when the `weather` field is `None`, otherwise the
table lookup on the code string. -/
def resolve_condition (w : Option String) : String :=
  match w with
  | none => "Data tidak tersedia"
  | some code => get_weather_condition_description_id code

/-- One bullet line of the message:
`f"• {time_str} WIB: {weather_condition}{temp_str}\n"`. -/
def render_forecast_line (f : Forecast) : String :=
  let time_str := two_digit f.datetime.hourOf ++ ":00"
  let weather_condition := resolve_condition f.weather
  let temp_str :=
    match f.temperature with
    | none => ""
    | some v => " " ++ toString v ++ "°C"
  "• " ++ time_str ++ " WIB: " ++ weather_condition ++ temp_str ++ "\n"

/-- The day section appended to the message when `day_forecasts` is
non-empty. -/
def day_section (dayF : List Forecast) : String :=
  if dayF.isEmpty then ""
  else "*Prakiraan Cuaca Siang Hari:*\n" ++
    String.join (dayF.map render_forecast_line)

/-- The night section appended to the message when `night_forecasts` is
non-empty (with a separating blank line when a day section precedes it). -/
def night_section (dayF nightF : List Forecast) : String :=
  if nightF.isEmpty then ""
  else (if dayF.isEmpty then "" else "\n") ++
    "*Prakiraan Cuaca Malam Hari:*\n" ++
    String.join (nightF.map render_forecast_line)

/-- `area_name` resolution: default `"Bukit Tunggal, Palangkaraya"`,
overridden by `weather_data.location.name` only when the location object
is present (truthy) and the name attribute is present and truthy
(non-empty). -/
def resolveAreaName (wd : WeatherData) : String :=
  match wd.location with
  | none => "Bukit Tunggal, Palangkaraya"
  | some loc =>
    match loc.name with
    | none => "Bukit Tunggal, Palangkaraya"
    | some n => if n = "" then "Bukit Tunggal, Palangkaraya" else n

/-- Where, if anywhere, an exception is raised inside the `try` block:
nowhere, while resolving the location (before the location line is
appended), or while processing the forecast entries (after the location
line, before any section line). -/
inductive ExcPoint where
  | noExc
  | duringLocation
  | duringEntries
deriving DecidableEq

/-- The `try` block of `format_weather_message`, starting from the message
built so far.  Returns the message at exit together with a flag telling
whether an exception escaped to the `except` handler (in which case the
message is whatever had been appended before the raise). -/
def try_block (wd : WeatherData) (now : Timestamp) (msg0 : String)
    (exc : ExcPoint) : String × Bool :=
  if exc = ExcPoint.duringLocation then (msg0, true)
  else
    let area_name := resolveAreaName wd
    let msg1 := msg0 ++ ("*Lokasi:* " ++ (area_name ++ "\n\n"))
    if exc = ExcPoint.duringEntries then (msg1, true)
    else
      if wd.weathers.isEmpty then
        (msg1 ++ "*Prakiraan Cuaca:* Data tidak tersedia\n", false)
      else
        let dayF := day_forecasts now wd.weathers
        let nightF := night_forecasts now wd.weathers
        let msg2 := msg1 ++ day_section dayF
        let msg3 := msg2 ++ night_section dayF nightF
        let has_forecasts := !dayF.isEmpty || !nightF.isEmpty
        let msg4 :=
          if has_forecasts then msg3
          else msg3 ++ "*Prakiraan Cuaca:* Tidak ada prakiraan untuk hari ini\n"
        (msg4, false)

/-- The message built by lines 113–114 of the source, before the `try`
block: the bold header and the date line. -/
def message_header (now : Timestamp) : String :=
  "*Info Cuaca BMKG* 🌤️\n\n" ++
    ("*Tanggal:* " ++ (current_date_str now ++ "\n"))

/-- `format_weather_message` with the exception-injection point made
explicit: when the `try` block reports an exception, the fixed error line
is appended to whatever it had built; the attribution line closes the
message either way. -/
def format_weather_message_exc :
    Option WeatherData → Timestamp → ExcPoint → String
  | none, _, _ => "⚠️ Tidak dapat mengambil data cuaca dari BMKG."
  | some wd, now, exc =>
    (if (try_block wd now (message_header now) exc).2 then
      (try_block wd now (message_header now) exc).1 ++
        "*Prakiraan Cuaca:* Error saat memproses data\n"
    else
      (try_block wd now (message_header now) exc).1) ++
    "\nSumber data: BMKG Indonesia"

/-- `format_weather_message` on an execution where no exception arises. -/
def format_weather_message (weather_data : Option WeatherData)
    (now : Timestamp) : String :=
  format_weather_message_exc weather_data now ExcPoint.noExc

/-- Spec-side reading of the daytime policy (Policy A): the day section is
drawn from the entries at indices `0..7` (hence from the first
`min(8, len)` entries, in order); the entry at index `i`, when it exists,
is assigned the wall-clock time `now + (i+1)` hours with minutes and
seconds zeroed, and is kept iff that time falls on today's date with hour
at most 18. -/
def day_forecasts_spec (now : Timestamp) (ws : List WeatherEntry) :
    List Forecast :=
  (List.range 8).filterMap fun i =>
    ws[i]?.bind fun e =>
      let ft := (now.addHours (i + 1)).floorToHour
      if ft.dateOf = now.dateOf ∧ ft.hourOf ≤ 18 then
        some (mkForecast ft e)
      else none

/-- Spec-side reading of the night policy (Policy A): up to 4 entries
starting at index `min(8, len)`; before 19:00 the `i`-th one is assigned
the fixed hour `[19, 21, 23, 1][i]`, hour 1 landing on tomorrow's date and
the others on today's; from 19:00 on it is assigned `now + (2*i+1)` hours
rounded down to the hour. -/
def night_forecasts_spec (now : Timestamp) (ws : List WeatherEntry) :
    List Forecast :=
  let offset := min 8 ws.length
  (List.range 4).filterMap fun i =>
    (ws[i + offset]?).map fun e =>
      let ft :=
        if now.hourOf < 19 then
          let hour := night_hours.getD i 1
          combineDateHour (if hour = 1 then now.dateOf + 1 else now.dateOf)
            hour
        else
          (now.addHours (2 * i + 1)).floorToHour
      mkForecast ft e

/-- The part of the message that has been appended before an injected
exception is raised: the header and date line, plus the location line when
the raise happens after it. -/
def built_before_raise : WeatherData → Timestamp → ExcPoint → String
  | wd, now, ExcPoint.duringEntries =>
    message_header now ++ ("*Lokasi:* " ++ (resolveAreaName wd ++ "\n\n"))
  | _, now, _ => message_header now

/-- Dropping the tail of a `range`-indexed `filterMap` whose entries past
`m` all map to `none`. -/
theorem filterMap_range_of_none_past {β : Type} (g : Nat → Option β) :
    ∀ n m, m ≤ n → (∀ i, m ≤ i → g i = none) →
      (List.range n).filterMap g = (List.range m).filterMap g := by
  intro n
  induction n with
  | zero =>
    intro m hm _
    have : m = 0 := Nat.le_zero.mp hm
    rw [this]
  | succ k ih =>
    intro m hm hg
    rcases Nat.eq_or_lt_of_le hm with h | h
    · rw [h]
    · have hmk : m ≤ k := Nat.lt_succ_iff.mp h
      rw [List.range_succ, List.filterMap_append, ih m hmk hg]
      simp [hg k hmk]

/-- The temperature-probing loop returns the first present non-null
candidate value. -/
theorem resolveTempLoop_eq_head (l : List (Option (Option Int))) :
    resolveTempLoop none l = (l.filterMap fun f => f.bind id).head? := by
  induction l with
  | nil => rfl
  | cons f rest ih =>
    match f with
    | none => simpa [resolveTempLoop, List.filterMap] using ih
    | some none => simpa [resolveTempLoop, List.filterMap] using ih
    | some (some x) => simp [resolveTempLoop, List.filterMap_cons]

/-- First projection of a literal pair. -/
theorem pair_fst {α β : Type} (a : α) (b : β) : (a, b).1 = a := rfl

/-- Second projection of a literal pair. -/
theorem pair_snd {α β : Type} (a : α) (b : β) : (a, b).2 = b := rfl

/-- The `try` block on an exception raised during location resolution:
nothing was appended beyond the incoming message. -/
theorem try_block_duringLocation (wd : WeatherData) (now : Timestamp)
    (s : String) :
    try_block wd now s ExcPoint.duringLocation = (s, true) := rfl

/-- The `try` block on an exception raised while processing the forecast
entries: the location line was already appended. -/
theorem try_block_duringEntries (wd : WeatherData) (now : Timestamp)
    (s : String) :
    try_block wd now s ExcPoint.duringEntries =
      (s ++ ("*Lokasi:* " ++ (resolveAreaName wd ++ "\n\n")), true) := rfl

/-- The `try` block without exception on an empty `weathers` list: the
location line and the fixed no-data line are appended. -/
theorem try_block_noExc_nil (wd : WeatherData) (now : Timestamp)
    (s : String) (h : wd.weathers = []) :
    try_block wd now s ExcPoint.noExc =
      ((s ++ ("*Lokasi:* " ++ (resolveAreaName wd ++ "\n\n"))) ++
        "*Prakiraan Cuaca:* Data tidak tersedia\n", false) := by
  obtain ⟨loc?, wsl⟩ := wd
  have h' : wsl = [] := h
  subst h'
  rfl

/-- Nothing precedes the location line in the built-portion account of an
exception during location resolution. -/
theorem built_before_raise_duringLocation (wd : WeatherData)
    (now : Timestamp) :
    built_before_raise wd now ExcPoint.duringLocation =
      message_header now := rfl

/-- The location line precedes an exception during entry processing. -/
theorem built_before_raise_duringEntries (wd : WeatherData)
    (now : Timestamp) :
    built_before_raise wd now ExcPoint.duringEntries =
      message_header now ++
        ("*Lokasi:* " ++ (resolveAreaName wd ++ "\n\n")) := rfl

/-- C3: for every value of `now`, formatting an absent (`None`) response
returns exactly the fixed apology string
`"⚠️ Tidak dapat mengambil data cuaca dari BMKG."`, with no other
processing. -/
theorem claim_C3_absent_response (now : Timestamp) :
    format_weather_message none now =
      "⚠️ Tidak dapat mengambil data cuaca dari BMKG." := rfl

/-- C4: the day section is built from the first `min(8, len(weathers))`
entries in order; the entry at index `i` is assigned the wall-clock time
`now + (i+1)` hours with minutes and seconds zeroed, and is kept iff that
time falls on today's date with hour at most 18. -/
theorem claim_C4_day_selection (now : Timestamp) (ws : List WeatherEntry) :
    day_forecasts now ws = day_forecasts_spec now ws := by
  simp only [day_forecasts, day_forecasts_spec]
  rcases le_or_lt 8 ws.length with h8 | h8
  · rw [Nat.min_eq_left h8]
    apply List.filterMap_congr
    intro i hi
    have hilen : i < ws.length := Nat.lt_of_lt_of_le (List.mem_range.mp hi) h8
    rw [dif_pos hilen, List.getElem?_eq_getElem hilen]
    rfl
  · rw [Nat.min_eq_right (Nat.le_of_lt h8)]
    rw [filterMap_range_of_none_past _ 8 ws.length (Nat.le_of_lt h8)
      (by intro i hi; simp [List.getElem?_eq_none hi])]
    apply List.filterMap_congr
    intro i hi
    have hilen : i < ws.length := List.mem_range.mp hi
    rw [dif_pos hilen, List.getElem?_eq_getElem hilen]
    rfl

/-- C5: the night section takes up to 4 entries starting at index
`min(8, len(weathers))`; when the current hour is before 19 the `i`-th
night entry gets the fixed hour `[19, 21, 23, 1][i]` (hour 1 on tomorrow's
date, the others on today's); from hour 19 on it gets `now + (2*i+1)`
hours rounded down to the hour. -/
theorem claim_C5_night_selection (now : Timestamp) (ws : List WeatherEntry) :
    night_forecasts now ws = night_forecasts_spec now ws := by
  simp only [night_forecasts, night_forecasts_spec]
  have main : ∀ i, i < 4 →
      (if h : i + min 8 ws.length < ws.length then
        some (mkForecast
          (if now.hourOf < 19 then
            if night_hours.getD i 1 < 12 ∧ night_hours.getD i 1 < 6 then
              combineDateHour (now.dateOf + 1) (night_hours.getD i 1)
            else combineDateHour now.dateOf (night_hours.getD i 1)
          else (now.addHours (i * 2 + 1)).floorToHour)
          (ws.get ⟨i + min 8 ws.length, h⟩))
      else none) =
      (ws[i + min 8 ws.length]?).map fun e =>
        mkForecast
          (if now.hourOf < 19 then
            combineDateHour
              (if night_hours.getD i 1 = 1 then now.dateOf + 1 else now.dateOf)
              (night_hours.getD i 1)
          else (now.addHours (2 * i + 1)).floorToHour) e := by
    intro i hi4
    by_cases hlen : i + min 8 ws.length < ws.length
    · rw [dif_pos hlen, List.getElem?_eq_getElem hlen]
      interval_cases i <;> simp [night_hours]
    · rw [dif_neg hlen, List.getElem?_eq_none (Nat.le_of_not_lt hlen)]
      rfl
  rcases le_or_lt 4 ws.length with h4 | h4
  · rw [Nat.min_eq_left h4]
    apply List.filterMap_congr
    intro i hi
    exact main i (List.mem_range.mp hi)
  · rw [Nat.min_eq_right (Nat.le_of_lt h4)]
    rw [filterMap_range_of_none_past _ 4 ws.length (Nat.le_of_lt h4)
      (by
        intro i hi
        have hle : ws.length ≤ i + min 8 ws.length :=
          Nat.le_trans hi (Nat.le_add_right i _)
        simp [List.getElem?_eq_none hle])]
    apply List.filterMap_congr
    intro i hi
    exact main i (Nat.lt_of_lt_of_le (List.mem_range.mp hi) (Nat.le_of_lt h4))

/-- C6: the displayed temperature is the first present non-null value
among the candidate attributes `temperature`, `temp`, `t`, `suhu` in that
order; in particular `temperature = None` with `temp = 25` resolves to 25,
and an entry with no present non-null candidate resolves to none. -/
theorem claim_C6_temperature_resolution :
    (∀ e : WeatherEntry,
      resolveTemp e = ((tempAttrs e).filterMap fun f => f.bind id).head?) ∧
    resolveTemp { temperature := some none, temp := some (some 25) } =
      some 25 ∧
    resolveTemp {} = none ∧
    resolveTemp
      { temperature := some none, temp := some none, t := some none,
        suhu := some none } = none := by
  refine ⟨fun e => resolveTempLoop_eq_head (tempAttrs e), rfl, rfl, rfl⟩

/-- C2: the code→description lookup is total: each of the 14 table codes
maps to its fixed Indonesian description, every other code string maps to
the unknown-condition message carrying the code verbatim, and a `None`
weather field renders the fixed `"Data tidak tersedia"` placeholder
without consulting the lookup. -/
theorem claim_C2_condition_lookup_total :
    (get_weather_condition_description_id "0" = "Cerah ☀️" ∧
     get_weather_condition_description_id "1" = "Cerah Berawan 🌤️" ∧
     get_weather_condition_description_id "2" = "Cerah Berawan 🌤️" ∧
     get_weather_condition_description_id "3" = "Berawan ☁️" ∧
     get_weather_condition_description_id "4" = "Berawan Tebal ☁️" ∧
     get_weather_condition_description_id "5" = "Udara Kabur 🌫️" ∧
     get_weather_condition_description_id "10" = "Asap 🌫️" ∧
     get_weather_condition_description_id "45" = "Berkabut 🌫️" ∧
     get_weather_condition_description_id "60" = "Hujan Ringan 🌦️" ∧
     get_weather_condition_description_id "61" = "Hujan Sedang 🌧️" ∧
     get_weather_condition_description_id "63" = "Hujan Lebat 🌧️" ∧
     get_weather_condition_description_id "80" = "Hujan Lokal 🌦️" ∧
     get_weather_condition_description_id "95" = "Hujan Petir ⛈️" ∧
     get_weather_condition_description_id "97" = "Hujan Petir ⛈️") ∧
    (∀ code : String,
      code ∉ ["0", "1", "2", "3", "4", "5", "10", "45", "60", "61", "63",
        "80", "95", "97"] →
      get_weather_condition_description_id code =
        "Kondisi Cuaca Tidak Diketahui (Kode: " ++ code ++ ")") ∧
    resolve_condition none = "Data tidak tersedia" := by
  refine ⟨⟨rfl, rfl, rfl, rfl, rfl, rfl, rfl, rfl, rfl, rfl, rfl, rfl, rfl,
    rfl⟩, ?_, rfl⟩
  intro code h
  have hnone : weather_codes.lookup code = none := by
    rw [List.lookup_eq_none_iff]
    intro p hp
    fin_cases hp <;> simp only [bne_iff_ne] <;>
      exact fun heq => h (by simp [heq])
  simp only [get_weather_condition_description_id, hnone, Option.getD_none]

/-- Witness for C2 at the concrete unmapped code `"99"`. -/
theorem claim_C2_witness :
    get_weather_condition_description_id "99" =
      "Kondisi Cuaca Tidak Diketahui (Kode: " ++ "99" ++ ")" :=
  claim_C2_condition_lookup_total.2.1 "99" (by decide)

/-- C7: the displayed location defaults to
`"Bukit Tunggal, Palangkaraya"`; `response.location.name` overrides it
only when present and non-empty — an empty string does not override the
default (falsy-check semantics). -/
theorem claim_C7_location_fallback (wd : WeatherData) :
    (wd.location.bind Location.name = some "" →
      resolveAreaName wd = "Bukit Tunggal, Palangkaraya") ∧
    (∀ n : String, wd.location.bind Location.name = some n → n ≠ "" →
      resolveAreaName wd = n) ∧
    (wd.location.bind Location.name = none →
      resolveAreaName wd = "Bukit Tunggal, Palangkaraya") := by
  rcases wd with ⟨loc?, wsl⟩
  rcases loc? with _ | ⟨name?⟩
  · exact ⟨fun h => by simp at h, fun n hn => by simp at hn,
      fun _ => rfl⟩
  · rcases name? with _ | n
    · exact ⟨fun h => by simp at h, fun n hn => by simp at hn,
      fun _ => rfl⟩
    · refine ⟨fun h => ?_, fun m hm hne => ?_, fun h => by simp at h⟩
      · have hn : n = "" := by simpa using h
        simp [resolveAreaName, hn]
      · have hn : n = m := by simpa using hm
        subst hn
        simp [resolveAreaName, hne]

/-- Witness for C7: an empty location name leaves the default in place. -/
theorem claim_C7_witness :
    resolveAreaName { location := some { name := some "" }, weathers := [] }
      = "Bukit Tunggal, Palangkaraya" :=
  (claim_C7_location_fallback
    { location := some { name := some "" }, weathers := [] }).1 rfl

/-- C1: the formatter never raises past its boundary: for every non-absent
response, an exception injected while processing the location or the
forecast entries is caught, and the result is the already-built
header/date/location portion followed by the fixed
`"*Prakiraan Cuaca:* Error saat memproses data"` line and the trailing
attribution line. -/
theorem claim_C1_error_boundary (wd : WeatherData) (now : Timestamp)
    (exc : ExcPoint) (h : exc ≠ ExcPoint.noExc) :
    format_weather_message_exc (some wd) now exc =
      (built_before_raise wd now exc ++
        "*Prakiraan Cuaca:* Error saat memproses data\n") ++
      "\nSumber data: BMKG Indonesia" := by
  cases exc with
  | noExc => exact absurd rfl h
  | duringLocation =>
    simp only [format_weather_message_exc]
    rw [try_block_duringLocation, pair_snd, pair_fst, if_pos rfl,
      built_before_raise_duringLocation]
  | duringEntries =>
    simp only [format_weather_message_exc]
    rw [try_block_duringEntries, pair_snd, pair_fst, if_pos rfl,
      built_before_raise_duringEntries]

/-- Witness for C1: a concrete response and an exception during location
processing. -/
theorem claim_C1_witness :
    format_weather_message_exc (some {}) 0 ExcPoint.duringLocation =
      (built_before_raise {} 0 ExcPoint.duringLocation ++
        "*Prakiraan Cuaca:* Error saat memproses data\n") ++
      "\nSumber data: BMKG Indonesia" :=
  claim_C1_error_boundary {} 0 ExcPoint.duringLocation (by decide)

/-- C8: a response whose `weathers` sequence is empty (or absent, which is
indistinguishable) formats, for every `now`, to the message carrying the
header, date, location and attribution lines around the fixed
`"*Prakiraan Cuaca:* Data tidak tersedia"` placeholder; no forecast lists
are built, so no bullet line is produced. -/
theorem claim_C8_empty_weathers (wd : WeatherData) (now : Timestamp)
    (h : wd.weathers = []) :
    format_weather_message (some wd) now =
      ((message_header now ++
        ("*Lokasi:* " ++ (resolveAreaName wd ++ "\n\n"))) ++
        "*Prakiraan Cuaca:* Data tidak tersedia\n") ++
      "\nSumber data: BMKG Indonesia" ∧
    day_forecasts now wd.weathers = [] ∧
    night_forecasts now wd.weathers = [] := by
  obtain ⟨loc?, wsl⟩ := wd
  have h' : wsl = [] := h
  subst h'
  refine ⟨?_, rfl, rfl⟩
  simp only [format_weather_message, format_weather_message_exc]
  rw [try_block_noExc_nil _ _ _ rfl, pair_snd, pair_fst,
    if_neg Bool.false_ne_true]

/-- Witness for C8 at a concrete empty response. -/
theorem claim_C8_witness :
    format_weather_message (some {}) 0 =
      ((message_header 0 ++
        ("*Lokasi:* " ++ (resolveAreaName {} ++ "\n\n"))) ++
        "*Prakiraan Cuaca:* Data tidak tersedia\n") ++
      "\nSumber data: BMKG Indonesia" ∧
    day_forecasts 0 (WeatherData.weathers {}) = [] ∧
    night_forecasts 0 (WeatherData.weathers {}) = [] :=
  claim_C8_empty_weathers {} 0 rfl

/-- C9: formatting is deterministic — identical response and `now` inputs
produce identical output strings; the result depends only on the declared
inputs of the model. -/
theorem claim_C9_determinism (wd₁ wd₂ : Option WeatherData)
    (now₁ now₂ : Timestamp) (h₁ : wd₁ = wd₂) (h₂ : now₁ = now₂) :
    format_weather_message wd₁ now₁ = format_weather_message wd₂ now₂ := by
  rw [h₁, h₂]

/-- Witness for C9 at concrete identical inputs. -/
theorem claim_C9_witness :
    format_weather_message none 0 = format_weather_message none 0 :=
  claim_C9_determinism none none 0 0 rfl rfl

/-- C10: when the current hour is at least 18, every candidate daytime
slot `now + (i+1)` hours either has hour above 18 or falls on the next
calendar date, so the day list is empty and the day section (label and
bullets) is absent from the message. -/
theorem claim_C10_no_day_section_late (now : Timestamp)
    (ws : List WeatherEntry) (h : 18 ≤ now.hourOf) :
    day_forecasts now ws = [] ∧ day_section (day_forecasts now ws) = "" := by
  have hd : day_forecasts now ws = [] := by
    simp only [day_forecasts]
    rw [List.filterMap_eq_nil_iff]
    intro i hi
    have hilen : i < ws.length :=
      Nat.lt_of_lt_of_le (List.mem_range.mp hi) (Nat.min_le_right 8 ws.length)
    rw [dif_pos hilen]
    have hcond : ¬((now.addHours (i + 1)).floorToHour.dateOf = now.dateOf ∧
        (now.addHours (i + 1)).floorToHour.hourOf ≤ 18) := by
      simp only [Timestamp.addHours, Timestamp.floorToHour, Timestamp.dateOf,
        Timestamp.hourOf] at h ⊢
      omega
    rw [if_neg hcond]
  exact ⟨hd, by rw [hd]; rfl⟩

/-- Witness for C10 at 18:00 with a one-entry forecast list. -/
theorem claim_C10_witness :
    day_forecasts 64800 [({} : WeatherEntry)] = [] ∧
    day_section (day_forecasts 64800 [({} : WeatherEntry)]) = "" :=
  claim_C10_no_day_section_late 64800 [({} : WeatherEntry)] (by decide)
